import Mathlib

/-!
Verification of the stream-supervision core of the `ollama-gpt` repository
(`llama_manager.py`, `llama_request_http.py`) against its specification.

The Python source is shallowly embedded: pure helpers become Lean functions,
the imperative signal-emitting loops become functions producing event lists,
and Qt / OS state touched by the handlers is carried as explicit records.
Python `int` is modelled by `Int`/`Nat`; Python `float` arithmetic (used in
the progress-percent computation) is modelled exactly by round-to-nearest-even
IEEE-754 binary64 arithmetic over `Rat`.
-/

namespace OllamaGpt

/-! ### OutputFilter: `strip_output` (llama_manager.py 10-20, llama_request_http.py 10-18)

`strip_output` applies two `re.sub` deletions in order: first the ANSI
pattern (ESC followed by either one byte in 0x40-0x5A or 0x5C-0x5F, or by a
bracket, CSI parameter bytes 0x30-0x3F, CSI intermediate bytes 0x20-0x2F and
a final byte 0x40-0x7E), then the spinner-glyph class, one or more repeats. -/

/-- The single character following ESC in the first alternative of the ANSI
regex: 0x40-0x5A (at-sign to Z) or 0x5C-0x5F (backslash to underscore). -/
def isEscSingleFinal (c : Char) : Bool :=
  (0x40 ≤ c.toNat && c.toNat ≤ 0x5A) || (0x5C ≤ c.toNat && c.toNat ≤ 0x5F)

/-- CSI parameter bytes 0x30-0x3F (digit zero to question mark). -/
def isCsiParam (c : Char) : Bool := 0x30 ≤ c.toNat && c.toNat ≤ 0x3F

/-- CSI intermediate bytes 0x20-0x2F (space to slash). -/
def isCsiInter (c : Char) : Bool := 0x20 ≤ c.toNat && c.toNat ≤ 0x2F

/-- CSI final bytes 0x40-0x7E (at-sign to tilde). -/
def isCsiFinal (c : Char) : Bool := 0x40 ≤ c.toNat && c.toNat ≤ 0x7E

/-- Try to match the tail of the ANSI pattern (everything after the ESC) at the
head of `cs`; on success return the remaining suffix.  The character classes
of the CSI alternative are pairwise disjoint, so the greedy scan below is
exactly the regex backtracking semantics. -/
def matchEscAux (cs : List Char) : Option (List Char) :=
  match cs with
  | [] => none
  | d :: rest =>
    if isEscSingleFinal d then some rest
    else if d = '[' then
      let r1 := rest.dropWhile isCsiParam
      let r2 := r1.dropWhile isCsiInter
      match r2 with
      | [] => none
      | f :: r3 => if isCsiFinal f then some r3 else none
    else none

/-- One left-to-right `re.sub(pattern, replacement-empty)` pass of the ANSI
regex: at each position, if a match starts there it is deleted and scanning
resumes after it; otherwise the character is kept.  The `fuel` argument only
makes the recursion structural (a match consumes at least one character, so
`fuel = length` suffices); it does not change the computed value. -/
def ansiStripFuel : Nat → List Char → List Char
  | 0, cs => cs
  | _ + 1, [] => []
  | fuel + 1, c :: cs =>
    if c = '\x1B' then
      match matchEscAux cs with
      | some rest => ansiStripFuel fuel rest
      | none => c :: ansiStripFuel fuel cs
    else c :: ansiStripFuel fuel cs

/-- The ANSI-escape deletion pass of `strip_output`. -/
def ansiStrip (cs : List Char) : List Char := ansiStripFuel cs.length cs

/-- The nine spinner glyphs of the spinner regex. -/
def isSpinner (c : Char) : Bool :=
  c = '⠙' || c = '⠹' || c = '⠸' || c = '⠴' || c = '⠦' ||
  c = '⠧' || c = '⠇' || c = '⠏' || c = '⠋'

/-- `re.sub` of `[spinner-class]+` with the empty string deletes every maximal
run of spinner glyphs, i.e. removes exactly the spinner characters. -/
def spinnerStrip (cs : List Char) : List Char := cs.filter (fun c => !isSpinner c)

/-- `strip_output` (identical in both source files): ANSI pass then spinner pass. -/
def strip_output (s : String) : String := ⟨spinnerStrip (ansiStrip s.data)⟩

/-! ### Exact binary64 model of the Python float arithmetic used for percentages

`PullThread.run` computes `progress = int((completed / total) * 100)` using
CPython floats.  CPython `int / int` true division is the correctly rounded
IEEE-754 binary64 quotient, and `float * int-literal-100` is the correctly
rounded binary64 product, both with round-to-nearest, ties-to-even at a
53-bit significand.  `rn64` below implements that rounding exactly on `Rat`
(for the normal range; the byte counts appearing in pull progress lines are
far below any overflow or subnormal boundary). -/

/-- Structural (fuel-based) floor of the base-2 logarithm of a natural number;
`natLog2 n` is the usual `⌊log2 n⌋` for `n ≥ 1` (fuel `n` always suffices). -/
def natLog2Fuel : Nat → Nat → Nat
  | 0, _ => 0
  | fuel + 1, n => if n ≤ 1 then 0 else natLog2Fuel fuel (n / 2) + 1

/-- Floor of the base-2 logarithm of a positive natural number. -/
def natLog2 (n : Nat) : Nat := natLog2Fuel n n

/-- Floor of the base-2 logarithm of the positive rational `a / b`. -/
def floorLog2 (a b : Nat) : Int :=
  let la := natLog2 a
  let lb := natLog2 b
  if b * 2 ^ la ≤ a * 2 ^ lb then (la : Int) - lb else (la : Int) - lb - 1

/-- Round the fraction `a / b` (with `b > 0`) to the nearest integer,
ties to even. -/
def rneFrac (a : Int) (b : Nat) : Int :=
  let q := Int.fdiv a b
  let r := a - q * b
  let twice := 2 * r
  if twice < (b : Int) then q
  else if (b : Int) < twice then q + 1
  else if q % 2 = 0 then q else q + 1

/-- Round the exact fraction `a / b` (with `b > 0`) to the nearest IEEE-754
binary64 value (round-to-nearest, ties-to-even, 53-bit significand), returned
as an exact fraction `(numerator, positive denominator)`.  Exact on the
normal range, which covers every value arising here. -/
def rn64Frac (a : Int) (b : Nat) : Int × Nat :=
  if a = 0 then (0, 1)
  else
    let n := a.natAbs
    let e := floorLog2 n b
    let s := 52 - e
    let m := if 0 ≤ s then rneFrac ((n : Int) * 2 ^ s.toNat) b
             else rneFrac (n : Int) (b * 2 ^ (-s).toNat)
    let v : Int × Nat := if 0 ≤ s then (m, 2 ^ s.toNat) else (m * 2 ^ (-s).toNat, 1)
    if 0 < a then v else (-v.1, v.2)

/-- `int((completed / total) * 100)` exactly as CPython computes it: binary64
true division of the two integers, binary64 multiplication by 100, then
`int()` truncation toward zero (`Int.tdiv` is truncating division). -/
def pct64 (completed total : Int) : Int :=
  let f1 := rn64Frac completed total.natAbs
  let f2 := rn64Frac (f1.1 * 100) f1.2
  Int.tdiv f2.1 (f2.2 : Int)

/-! ### JSON values and the Python operations applied to them

`json.loads` can return any JSON value; the worker threads then apply
`"key" in obj`, `obj["key"]` and `int(...)` to the result, each of which can
raise depending on the value's runtime type.  `Option` models raising:
`none` means the Python operation raises an exception.  JSON numbers are
modelled as integers (the `total` / `completed` byte counts and every value
the claims quantify over are integral). -/

inductive JVal where
  | jnull
  | jbool (b : Bool)
  | jnum (n : Int)
  | jstr (s : String)
  | jarr (xs : List JVal)
  | jobj (fields : List (String × JVal))

/-- Python `needle in haystack` for strings: substring test. -/
def pyInStr (needle haystack : String) : Bool :=
  (List.range (haystack.data.length + 1)).any
    (fun i => needle.data.isPrefixOf (haystack.data.drop i))

/-- Dictionary lookup on a parsed JSON object (`json.loads` produces a dict,
so keys are unique and the first match is the binding). -/
def jLookup (fs : List (String × JVal)) (k : String) : Option JVal :=
  (fs.find? (fun p => p.1 == k)).map (fun p => p.2)

/-- Python `k in v`.  For a dict it is a key test, for a list a membership
test (string-equality against elements; comparing a str with a non-str is
`False`), for a str a substring test; for `int`, `bool` and `None` it raises
`TypeError` (`none`). -/
def pyContains (v : JVal) (k : String) : Option Bool :=
  match v with
  | .jobj fs => some (jLookup fs k).isSome
  | .jarr xs => some (xs.any fun x => match x with | .jstr s => s == k | _ => false)
  | .jstr s => some (pyInStr k s)
  | _ => none

/-- Python `v[k]` with a string key: only a dict supports it (and the workers
only index after a successful `in` test, so `KeyError` cannot occur); every
other runtime type raises `TypeError` (`none`). -/
def jGetItem (v : JVal) (k : String) : Option JVal :=
  match v with
  | .jobj fs => jLookup fs k
  | _ => none

/-- Python `\s` (the ASCII part; the byte-count lines are ASCII). -/
def pyIsSpace (c : Char) : Bool := c.isWhitespace || c = '\x0B' || c = '\x0C'

/-- Python `str.strip()` with no argument: remove leading and trailing
whitespace (ASCII whitespace suffices for the strings handled here). -/
def pyStrip (s : String) : String :=
  ⟨((s.data.dropWhile pyIsSpace).reverse.dropWhile pyIsSpace).reverse⟩

/-- Digits to the natural number they denote. -/
def natOfDigits (ds : List Char) : Nat :=
  ds.foldl (fun n c => 10 * n + (c.toNat - 48)) 0

/-- Python `int(s)` on a string: strip whitespace, optional sign, decimal
digits; anything else raises `ValueError` (`none`).  (Underscore digit
separators are not modelled.) -/
def pyIntOfStr (s : String) : Option Int :=
  let core : List Char → Option Int := fun ds =>
    if ds.isEmpty then none
    else if ds.all Char.isDigit then some (natOfDigits ds) else none
  match (pyStrip s).data with
  | '+' :: ds => core ds
  | '-' :: ds => (core ds).map Int.neg
  | ds => core ds

/-- Python `int(v)`: exact on ints, `True ↦ 1` / `False ↦ 0`, string parse on
str; raises (`none`) on `None`, lists and dicts. -/
def pyInt (v : JVal) : Option Int :=
  match v with
  | .jnum n => some n
  | .jbool b => some (if b then 1 else 0)
  | .jstr s => pyIntOfStr s
  | _ => none

/-! ### The textual fallback regex of `PullThread.run` (llama_request_http.py 58)

`re.search` with the pattern: literal `Downloaded:`, optional whitespace, a
digit group, any characters except newline (greedy), literal `Total:`,
optional whitespace, a digit group.  The whitespace and digit classes are
disjoint from each other and from the literals that follow them, so the only
backtracking choice is the split point of the greedy dot-star, tried from the
rightmost position; start positions are tried left to right. -/


/-- Match a literal character sequence at the head, returning the rest. -/
def stripLit : List Char → List Char → Option (List Char)
  | [], cs => some cs
  | _ :: _, [] => none
  | l :: ls, c :: cs => if c = l then stripLit ls cs else none

/-- Match `Total:` then optional whitespace then a digit group at the head. -/
def tryTotalAt (cs : List Char) : Option Nat :=
  match stripLit "Total:".data cs with
  | none => none
  | some r =>
    let ds := (r.dropWhile pyIsSpace).takeWhile Char.isDigit
    if ds.isEmpty then none else some (natOfDigits ds)

/-- Try the `Total:` suffix at offsets `i, i-1, …, 0` (greedy dot-star:
rightmost split first). -/
def tryTotalDesc : Nat → List Char → Option Nat
  | 0, cs => tryTotalAt cs
  | i + 1, cs =>
    match tryTotalAt (cs.drop (i + 1)) with
    | some n => some n
    | none => tryTotalDesc i cs

/-- Match the whole pattern at the head of `cs`, returning the two captured
numbers. -/
def matchDLAt (cs : List Char) : Option (Nat × Nat) :=
  match stripLit "Downloaded:".data cs with
  | none => none
  | some r1 =>
    let r2 := r1.dropWhile pyIsSpace
    let ds := r2.takeWhile Char.isDigit
    if ds.isEmpty then none
    else
      let r3 := r2.dropWhile Char.isDigit
      let limit := (r3.takeWhile (fun c => c ≠ '\n')).length
      (tryTotalDesc limit r3).map (fun t => (natOfDigits ds, t))

/-- `re.search`: leftmost start position at which the whole pattern matches. -/
def findDL : List Char → Option (Nat × Nat)
  | [] => none
  | c :: cs =>
    match matchDLAt (c :: cs) with
    | some g => some g
    | none => findDL cs

/-! ### PullThread.run (llama_request_http.py 35-71)

Each iteration of `for line in response.iter_lines()` first reads the cancel
flag `self._running` and breaks if it is false.  A run is therefore modelled
by the list of body lines together with the number `k` of iterations that
observed the flag as true (`k ≥ lines.length` for a never-cancelled session).
Signals become an event list, in emission order. -/

inductive PullEvent where
  | progress (pct : Int)
  | info (completed total : Int)
  | log (msg : String)
deriving DecidableEq

/-- One line of the streamed body: `raw` is the UTF-8 decoded line and
`parsed` is the outcome of `json.loads` on the stripped text (`none` when it
raises). -/
structure RawLine where
  raw : String
  parsed : Option JVal

/-- The debug log message emitted for every nonempty pull line. -/
def debugStr (d : String) : String :=
  "<font color=\x27orange\x27>DEBUG: " ++ d ++ "</font>"

/-- The `try` block of the pull loop body: `some evts` means it ran to
completion emitting `evts`; `none` means an exception was raised (before any
emission — every raising operation precedes the first emit). -/
def pullJsonBranch (parsed : Option JVal) : Option (List PullEvent) :=
  match parsed with
  | none => none
  | some obj =>
    match pyContains obj "total" with
    | none => none
    | some false => some []
    | some true =>
      match pyContains obj "completed" with
      | none => none
      | some false => some []
      | some true =>
        match (jGetItem obj "total").bind pyInt with
        | none => none
        | some total =>
          match (jGetItem obj "completed").bind pyInt with
          | none => none
          | some completed =>
            some (if 0 < total then
              [.progress (pct64 completed total), .info completed total]
            else [])

/-- The `except` branch: regex fallback on the decoded, stripped line. -/
def pullFallback (d : String) : List PullEvent :=
  match findDL d.data with
  | some (c, t) =>
    if 0 < t then [.progress (pct64 c t), .info c t] else []
  | none => []

/-- Events emitted for one line of a pull body (empty bytes are skipped;
otherwise the debug log fires, then the JSON branch, with the textual
fallback on exception). -/
def pullLineEvents (l : RawLine) : List PullEvent :=
  if l.raw = "" then []
  else
    let d := pyStrip l.raw
    PullEvent.log (debugStr d) ::
      (match pullJsonBranch l.parsed with
       | some evts => evts
       | none => pullFallback d)

/-- The pull read loop: each iteration checks the cancel flag (`k` counts the
iterations that still observed it as true), then processes one line. -/
def pullLoop : Nat → List RawLine → List PullEvent
  | 0, _ => []
  | _ + 1, [] => []
  | k + 1, l :: ls => pullLineEvents l ++ pullLoop k ls

/-- Emitted after the loop exits — by body close or by cancel `break` alike:
`self.progress_signal.emit(100)` at line 66. -/
def pullPost : List PullEvent := [PullEvent.progress 100]

/-- A whole pull session (normal network path): the unconditional initial
`progress_signal.emit(0)`, the loop, then the post-loop final emit. -/
def pullRun (k : Nat) (lines : List RawLine) : List PullEvent :=
  PullEvent.progress 0 :: (pullLoop k lines ++ pullPost)

/-- An uncancelled pull session. -/
def pullRunAll (lines : List RawLine) : List PullEvent :=
  pullRun lines.length lines

/-- The percent payloads of the progress events, in order. -/
def percents (evts : List PullEvent) : List Int :=
  evts.filterMap fun e => match e with | .progress p => some p | _ => none

/-- Typed events of a pull session (progress and download info, not logs). -/
def isTypedPull : PullEvent → Bool
  | .progress _ => true
  | .info _ _ => true
  | .log _ => false

/-! ### GenerateThread.run (llama_request_http.py 89-114) -/

inductive GenEvent where
  | raw (s : String)
  | token (s : String)
  | log (s : String)
deriving DecidableEq

/-- Events emitted for one line of a generate body: every nonempty line is
emitted verbatim on the raw channel; a token is emitted only when the line
parses to a dict whose membership test, indexing and string-signal emission
all succeed — i.e. a JSON object with a string `response` field.  (For a
non-dict the membership test may succeed — substring test on a str — but
indexing raises; for a non-string field value the `pyqtSignal(str)` emission
raises `TypeError`; both are swallowed by `except: pass`.) -/
def genLineEvents (l : RawLine) : List GenEvent :=
  if l.raw = "" then []
  else
    let d := pyStrip l.raw
    GenEvent.raw d ::
      (match l.parsed with
       | none => []
       | some obj =>
         match pyContains obj "response" with
         | some true =>
           match jGetItem obj "response" with
           | some (.jstr s) => [GenEvent.token s]
           | _ => []
         | _ => [])

/-- The generate read loop, with the same cancel-flag counting as `pullLoop`. -/
def genLoop : Nat → List RawLine → List GenEvent
  | 0, _ => []
  | _ + 1, [] => []
  | k + 1, l :: ls => genLineEvents l ++ genLoop k ls

/-- Emitted after the generate loop exits (line 109), cancelled or not. -/
def genPost : List GenEvent := [GenEvent.log "生成完成。"]

/-- A whole generate session (normal network path). -/
def genRun (k : Nat) (lines : List RawLine) : List GenEvent :=
  genLoop k lines ++ genPost

/-- Typed events of a generate session: the token events. -/
def isTokenEvent : GenEvent → Bool
  | .token _ => true
  | _ => false

/-- The claim-side characterization of when a generate line yields a token:
the line parsed to a JSON object carrying a string `response` field. -/
def respStr : Option JVal → Option String
  | some (.jobj fs) =>
    match jLookup fs "response" with
    | some (.jstr s) => some s
    | _ => none
  | _ => none

/-! ### Model-list parsing: `onModelListOutput` (llama_manager.py 270-289) -/

/-- Python `str.split()`: split on whitespace runs, no empty tokens
(`acc` is the current token, reversed). -/
def pySplitGo : List Char → List Char → List String
  | [], acc => if acc.isEmpty then [] else [String.mk acc.reverse]
  | c :: rest, acc =>
    if c.isWhitespace then
      if acc.isEmpty then pySplitGo rest []
      else String.mk acc.reverse :: pySplitGo rest []
    else pySplitGo rest (c :: acc)

/-- Python `str.split()` on a string. -/
def pySplit (line : String) : List String := pySplitGo line.data []

/-- Split a character list at every newline, keeping empty segments. -/
def splitNlChars (cs : List Char) : List String :=
  (cs.foldr (fun c acc =>
    match acc with
    | [] => [[c]]
    | a :: as => if c = '\n' then [] :: (a :: as) else (c :: a) :: as) [[]]).map
    String.mk

/-- Python `str.splitlines()` for newline-separated text: like splitting on
the newline character, except that a trailing newline produces no trailing
empty line and the empty string has no lines. -/
def pySplitlines (s : String) : List String :=
  if s.data.isEmpty then []
  else
    let ls := splitNlChars s.data
    if ls.getLast? = some "" then ls.dropLast else ls

/-- Python `str.startswith`. -/
def pyStarts (pre t : String) : Bool := pre.data.isPrefixOf t.data

/-- The `for line in output.splitlines()` accumulation loop of
`onModelListOutput`: skip token-less lines, skip the header line (first token
`NAME`) and noise lines (first token starting with the `[GIN]` marker),
otherwise collect the first token. -/
def modelNamesLoop : List String → List String
  | [] => []
  | line :: rest =>
    match pySplit line with
    | [] => modelNamesLoop rest
    | t :: _ =>
      if t == "NAME" || pyStarts "[GIN]" t then modelNamesLoop rest
      else t :: modelNamesLoop rest

/-- The per-line characterization used by the claim: the first
whitespace-delimited token, unless the line is empty, the header, or noise. -/
def tokenName (line : String) : Option String :=
  match pySplit line with
  | [] => none
  | t :: _ =>
    if t == "NAME" || pyStarts "[GIN]" t then none else some t

/-- Widget state touched by `onModelListOutput`: the two combo-box item
lists and the server log. -/
structure ComboUI where
  runModels : List String
  pullModels : List String
  serverLog : List String
deriving DecidableEq

/-- `onModelListOutput`: filter the captured output, log it, parse model
names; on `if model_names:` clear-and-repopulate both combo boxes, otherwise
log the no-models message and leave the combo boxes untouched. -/
def onModelListOutput (ui : ComboUI) (rawOutput : String) : ComboUI :=
  let output := strip_output rawOutput
  let ui1 := { ui with serverLog := ui.serverLog ++ ["模型列表输出：", output] }
  let names := modelNamesLoop (pySplitlines output)
  if names.isEmpty then
    { ui1 with serverLog :=
        ui1.serverLog ++ ["<font color=\x27red\x27>未找到有效的模型信息</font>"] }
  else
    { ui1 with runModels := names, pullModels := names }

/-! ### startServer (llama_manager.py 211-230, llama_request_http.py 301-320;
the two definitions are identical)

`self.serverProcess` is a single `QProcess` member.  Calling
`QProcess::start` while its state is not `NotRunning` emits only the runtime
warning `QProcess::start: Process is already running` and returns without
spawning anything, and `waitForStarted` returns `true` immediately because
the (old) process is already past `Starting`; a `QProcess` object never holds
more than one live child.  The filesystem `os.path.exists`/`chmod` pair is
abstracted to the `exeExists` flag (`makeExecutable` only touches file
permission bits). -/

inductive QPState where
  | notRunning
  | starting
  | running
deriving DecidableEq

structure ServerUI where
  serverState : QPState
  serverLog : List String
deriving DecidableEq

/-- `QProcess::start`: spawn only from `NotRunning`; otherwise warn-and-return
leaving the running child untouched. -/
def qStart : QPState → QPState
  | .notRunning => .running
  | s => s

/-- `QProcess::waitForStarted(3000)`: false only when no process reached the
started state. -/
def qWaitForStarted : QPState → Bool
  | .notRunning => false
  | _ => true

/-- `os.path.dirname` (POSIX): everything up to the last slash, with
trailing slashes stripped unless the head is all slashes. -/
def pyDirname (p : String) : String :=
  let head := (p.data.reverse.dropWhile (fun c => c ≠ '/')).reverse
  if head.isEmpty then ""
  else if head.all (fun c => c = '/') then String.mk head
  else String.mk ((head.reverse.dropWhile (fun c => c = '/')).reverse)

/-- `startServer`: log, check the executable, log the path and working
directory, start the server `QProcess`, and log a failure only when
`waitForStarted` fails. -/
def startServer (exeExists : Bool) (path : String) (ui : ServerUI) : ServerUI :=
  let ui0 := { ui with serverLog := ui.serverLog ++ ["启动服务端：ollama serve"] }
  if exeExists then
    let ui1 := { ui0 with serverLog := ui0.serverLog ++
      ["服务器路径: " ++ path, "设置工作目录: " ++ pyDirname path] }
    let s1 := qStart ui1.serverState
    let ui2 := { ui1 with serverState := s1 }
    if qWaitForStarted s1 then ui2
    else { ui2 with serverLog := ui2.serverLog ++ ["启动进程失败！"] }
  else
    { ui0 with serverLog := ui0.serverLog ++ ["错误: 找不到文件 " ++ path] }

/-- Number of live server children owned by the `serverProcess` member. -/
def liveServerProcs (ui : ServerUI) : Nat :=
  if ui.serverState = QPState.running then 1 else 0

/-! ### sendCommand (llama_manager.py 387-411, POSIX branch)

`self.modelPtyProcess` is `None` before any `runSelectedModel`, and
`poll() is not None` exactly when the spawned interactive child has exited.
The pty state is the optional session (with its liveness) plus the sequence
of byte strings written to the master descriptor. -/

structure PtySess where
  alive : Bool
deriving DecidableEq

structure PtyUI where
  session : Option PtySess
  writes : List String
  modelLog : List String
deriving DecidableEq

inductive SendOutcome where
  | promptEmpty
  | notRunning
  | sent (data : String)
deriving DecidableEq

/-- `sendCommand`: strip the command text; an empty command is rejected with
the prompt message; with no session or an exited child, log the not-running
message and write nothing; otherwise write `cmd + "\n"` to the master. -/
def sendCommand (input : String) (ui : PtyUI) : SendOutcome × PtyUI :=
  let cmd := pyStrip input
  if cmd = "" then
    (.promptEmpty, { ui with modelLog := ui.modelLog ++ ["请输入命令"] })
  else
    match ui.session with
    | none =>
      (.notRunning, { ui with modelLog := ui.modelLog ++ ["模型运行进程未启动"] })
    | some s =>
      if s.alive then
        (.sent (cmd ++ "\n"),
         { ui with writes := ui.writes ++ [cmd ++ "\n"],
                   modelLog := ui.modelLog ++ ["发送命令: " ++ cmd] })
      else
        (.notRunning, { ui with modelLog := ui.modelLog ++ ["模型运行进程未启动"] })

/-! ### Concrete stream lines used as test vectors -/

/-- `\x7b"total": 100, "completed": 29\x7d` as decoded text and parse. -/
def line29 : RawLine :=
  ⟨"\x7b\"total\": 100, \"completed\": 29\x7d",
   some (.jobj [("total", .jnum 100), ("completed", .jnum 29)])⟩

/-- First line of the synthetic pull sequence. -/
def line0 : RawLine :=
  ⟨"\x7b\"total\":100,\"completed\":0\x7d",
   some (.jobj [("total", .jnum 100), ("completed", .jnum 0)])⟩

/-- Second line of the synthetic pull sequence. -/
def line50 : RawLine :=
  ⟨"\x7b\"total\":100,\"completed\":50\x7d",
   some (.jobj [("total", .jnum 100), ("completed", .jnum 50)])⟩

/-- Third line of the synthetic pull sequence. -/
def line100 : RawLine :=
  ⟨"\x7b\"total\":100,\"completed\":100\x7d",
   some (.jobj [("total", .jnum 100), ("completed", .jnum 100)])⟩

/-- The synthetic pull sequence of claim C3. -/
def c3Lines : List RawLine := [line0, line50, line100]

/-- A line that parses as a JSON object, carries `total` and `completed`,
but whose `total` is `null` — `int(None)` raises, and the raw text matches
the textual fallback pattern. -/
def nullTotalLine : RawLine :=
  ⟨"\x7b\"total\": null, \"completed\": 0, \"note\": \"Downloaded: 5 Total: 10\"\x7d",
   some (.jobj [("total", .jnull), ("completed", .jnum 0),
                ("note", .jstr "Downloaded: 5 Total: 10")])⟩

/-- A generate line carrying a string `response` field. -/
def genHelloLine : RawLine :=
  ⟨"\x7b\"response\": \"Hi\"\x7d", some (.jobj [("response", .jstr "Hi")])⟩

/-! ## Helper lemmas -/

theorem ansiStripFuel_of_no_esc (fuel : Nat) (cs : List Char)
    (h : ∀ c ∈ cs, c ≠ '\x1B') : ansiStripFuel fuel cs = cs := by
  induction fuel generalizing cs with
  | zero => rfl
  | succ n ih =>
    cases cs with
    | nil => rfl
    | cons c cs =>
      have hc : c ≠ '\x1B' := h c (by simp)
      simp only [ansiStripFuel, hc, if_false]
      rw [ih cs (fun x hx => h x (by simp [hx]))]

theorem ansiStrip_of_no_esc (cs : List Char) (h : ∀ c ∈ cs, c ≠ '\x1B') :
    ansiStrip cs = cs :=
  ansiStripFuel_of_no_esc cs.length cs h

theorem strip_output_data (s : String) :
    (strip_output s).data = spinnerStrip (ansiStrip s.data) := rfl

theorem pullLoop_eq_take (k : Nat) (lines : List RawLine) :
    pullLoop k lines = (lines.take k).flatMap pullLineEvents := by
  induction lines generalizing k with
  | nil => cases k <;> simp [pullLoop]
  | cons l ls ih =>
    cases k with
    | zero => simp [pullLoop]
    | succ k => simp [pullLoop, ih]

theorem genLoop_eq_take (k : Nat) (lines : List RawLine) :
    genLoop k lines = (lines.take k).flatMap genLineEvents := by
  induction lines generalizing k with
  | nil => cases k <;> simp [genLoop]
  | cons l ls ih =>
    cases k with
    | zero => simp [genLoop]
    | succ k => simp [genLoop, ih]

theorem modelNamesLoop_eq_filterMap (lines : List String) :
    modelNamesLoop lines = lines.filterMap tokenName := by
  induction lines with
  | nil => rfl
  | cons line rest ih =>
    cases h : pySplit line with
    | nil => simp [List.filterMap_cons, modelNamesLoop, tokenName, h, ih]
    | cons t ts =>
      by_cases hc : (t == "NAME" || pyStarts "[GIN]" t) = true
      · simp [List.filterMap_cons, modelNamesLoop, tokenName, h, hc, ih]
      · simp [List.filterMap_cons, modelNamesLoop, tokenName, h, hc, ih]

/-! ## Claim C1 -/

/-- C1, counterexample.  The claim says the emitted percent equals
`floor(100 * completed / total)`; on the line with `total = 100`,
`completed = 29` the code emits `28` (CPython computes
`int((29 / 100) * 100) = 28` because `29 / 100` rounds to a binary64 slightly
below `0.29` and the product to `28.999999999999996`), while
`floor(100 * 29 / 100) = 29`. -/
theorem c1_counterexample :
    pullLineEvents line29 =
      [PullEvent.log (debugStr (pyStrip line29.raw)),
       PullEvent.progress 28, PullEvent.info 29 100] ∧
    (100 * 29) / 100 = (29 : Int) ∧ (28 : Int) ≠ 29 :=
  ⟨by decide, by decide, by decide⟩

/-- C1, amended: for every Pull-stream line whose JSON object carries integer
`total` and `completed` fields, the monitor emits (after the debug log event)
a progress event whose percent equals `int((completed / total) * 100)`
computed in binary64 float arithmetic — which can differ from
`floor(100 * completed / total)`, e.g. 28 versus 29 at
`completed = 29, total = 100` — together with the download-info event; and
when `total` is not greater than 0 no progress event is emitted for that
line. -/
theorem c1_pull_percent_double_rounding
    (fs : List (String × JVal)) (raw : String) (t c : Int)
    (hraw : raw ≠ "")
    (ht : jLookup fs "total" = some (JVal.jnum t))
    (hc : jLookup fs "completed" = some (JVal.jnum c)) :
    pullLineEvents ⟨raw, some (JVal.jobj fs)⟩ =
      PullEvent.log (debugStr (pyStrip raw)) ::
        (if 0 < t then [PullEvent.progress (pct64 c t), PullEvent.info c t]
         else []) := by
  unfold pullLineEvents pullJsonBranch pyContains jGetItem
  simp [hraw, ht, hc, pyInt]

/-- C1, witness for the amended theorem at the 50-percent line. -/
theorem c1_witness :
    pullLineEvents line50 =
      PullEvent.log (debugStr (pyStrip line50.raw)) ::
        (if (0 : Int) < 100 then
          [PullEvent.progress (pct64 50 100), PullEvent.info 50 100]
         else []) :=
  c1_pull_percent_double_rounding
    [("total", JVal.jnum 100), ("completed", JVal.jnum 50)]
    line50.raw 100 50 (by decide) rfl rfl

/-! ## Claim C2 -/

/-- C2, counterexample.  `strip_output` is not idempotent: deleting the match
`ESC B` from `ESC ESC B [ A` makes the leading ESC adjacent to `[ A`, which
the second application deletes as a control sequence. -/
theorem c2_counterexample :
    strip_output (strip_output "\x1B\x1BB[A") ≠ strip_output "\x1B\x1BB[A" := by
  decide

/-- C2, amended: `strip_output` is idempotent on every input containing no
ESC character (deletion can create a new escape sequence only by exposing an
existing ESC), and it does not alter ordinary printable text — any input,
non-ASCII included, free of ESC characters and spinner glyphs is returned
unchanged. -/
theorem c2_filter_idempotent_on_esc_free (s : String) :
    ((∀ c ∈ s.data, c ≠ '\x1B') →
      strip_output (strip_output s) = strip_output s) ∧
    ((∀ c ∈ s.data, c ≠ '\x1B' ∧ isSpinner c = false) → strip_output s = s) := by
  constructor
  · intro h
    have h1 : ansiStrip s.data = s.data := ansiStrip_of_no_esc _ h
    have hdata : (strip_output s).data = spinnerStrip s.data := by
      rw [strip_output_data, h1]
    have h2 : ∀ c ∈ spinnerStrip s.data, c ≠ '\x1B' := fun c hc =>
      h c (List.mem_of_mem_filter hc)
    have hout : strip_output (strip_output s) =
        ⟨spinnerStrip (ansiStrip (spinnerStrip s.data))⟩ := by
      show (⟨spinnerStrip (ansiStrip (strip_output s).data)⟩ : String) = _
      rw [hdata]
    rw [hout, ansiStrip_of_no_esc _ h2]
    have h3 : spinnerStrip (spinnerStrip s.data) = spinnerStrip s.data := by
      unfold spinnerStrip
      rw [List.filter_filter]
      simp
    rw [h3, ← hdata]
  · intro h
    have h1 : ansiStrip s.data = s.data :=
      ansiStrip_of_no_esc _ (fun c hc => (h c hc).1)
    have h2 : spinnerStrip s.data = s.data :=
      List.filter_eq_self.mpr (fun c hc => by simp [(h c hc).2])
    show (⟨spinnerStrip (ansiStrip s.data)⟩ : String) = s
    rw [h1, h2]

/-- C2, witness: idempotence on an ESC-free input that still contains a
spinner glyph, and exact preservation of ordinary non-ASCII text. -/
theorem c2_witness :
    strip_output (strip_output "ab⠙") = strip_output "ab⠙" ∧
    strip_output "héllo wörld" = "héllo wörld" :=
  ⟨(c2_filter_idempotent_on_esc_free "ab⠙").1 (by decide),
   (c2_filter_idempotent_on_esc_free "héllo wörld").2 (by decide)⟩

/-! ## Claim C3 -/

/-- C3, counterexample.  The claim enumerates the session's percent sequence
as `[0, 50, 100]` followed by one final 100; the code also emits an
unconditional initial `progress_signal.emit(0)` before the first line, so the
actual sequence is `[0, 0, 50, 100, 100]`. -/
theorem c3_counterexample :
    percents (pullRunAll c3Lines) = [0, 0, 50, 100, 100] ∧
    ([0, 0, 50, 100, 100] : List Int) ≠ [0, 50, 100] ++ [100] :=
  ⟨by decide, by decide⟩

/-- C3, amended: fed the three synthetic lines, the uncancelled session
yields the line-derived percent sequence `[0, 50, 100]`, preceded by the
unconditional initial percent-0 event and followed by one final percent-100
event on normal body close; the whole sequence `[0, 0, 50, 100, 100]` is
non-decreasing (not strictly). -/
theorem c3_synthetic_percent_sequence :
    percents (pullRunAll c3Lines) = [0] ++ [0, 50, 100] ++ [100] ∧
    percents (c3Lines.flatMap pullLineEvents) = [0, 50, 100] ∧
    List.Chain' (· ≤ ·) (percents (pullRunAll c3Lines)) ∧
    (pullRunAll c3Lines).getLast? = some (PullEvent.progress 100) := by
  refine ⟨by decide, by decide, ?_, by decide⟩
  have h : percents (pullRunAll c3Lines) = [0, 0, 50, 100, 100] := by decide
  rw [h]
  simp [List.chain'_cons]

/-! ## Claim C4 -/

/-- C4, counterexample.  A pull session cancelled before its first line
(`k = 0` iterations observed the flag as true, with a line still unread)
still emits the typed event `progress 100` after the loop breaks: the claim
that no further typed events are emitted after cancellation is false for
Pull sessions. -/
theorem c4_counterexample :
    0 < c3Lines.length ∧
    pullRun 0 c3Lines = PullEvent.progress 0 :: ([] ++ pullPost) ∧
    PullEvent.progress 100 ∈ pullPost ∧
    isTypedPull (PullEvent.progress 100) = true :=
  ⟨by decide, by decide, by decide, by decide⟩

/-- C4, amended: once the cancel flag is observed (after `k` iterations) the
worker stops reading — the session processes exactly the first `k` lines, so
it stops within one line-read latency — and no further typed events are
emitted afterwards except that a cancelled Pull session still emits the one
final percent-100 progress event of the post-loop code; a Generate session
emits only the untyped completion log after the loop. -/
theorem c4_cancel_stops_reading (lines : List RawLine) (k : Nat) :
    pullRun k lines =
      PullEvent.progress 0 ::
        ((lines.take k).flatMap pullLineEvents ++ [PullEvent.progress 100]) ∧
    genRun k lines =
      (lines.take k).flatMap genLineEvents ++ [GenEvent.log "生成完成。"] ∧
    (genPost.all fun e => !isTokenEvent e) = true ∧
    pullPost = [PullEvent.progress 100] := by
  refine ⟨?_, ?_, by decide, rfl⟩
  · unfold pullRun pullPost
    rw [pullLoop_eq_take]
  · unfold genRun genPost
    rw [genLoop_eq_take]

/-! ## Claim C5 -/

/-- C5, confirmed: every nonempty Generate-stream line is emitted verbatim as
a raw diagnostic event, and additionally a token event carrying the
`response` string (possibly empty) is emitted exactly when the line parses as
a JSON object carrying a string `response` field; the raw event fires first
and independently of the typed one. -/
theorem c5_generate_raw_and_token (l : RawLine) (h : l.raw ≠ "") :
    genLineEvents l =
      GenEvent.raw (pyStrip l.raw) ::
        (match respStr l.parsed with
         | some s => [GenEvent.token s]
         | none => []) := by
  cases l with
  | mk raw parsed =>
    unfold genLineEvents
    simp only at h
    rw [if_neg h]
    match parsed with
    | none => rfl
    | some v =>
      cases v with
      | jobj fs =>
        unfold pyContains jGetItem respStr
        cases hfind : jLookup fs "response" with
        | none => simp [hfind]
        | some w => cases w <;> simp [hfind]
      | jstr s =>
        by_cases hc : pyInStr "response" s = true <;>
          simp [pyContains, respStr, jGetItem, hc]
      | jnull => rfl
      | jbool b => rfl
      | jnum n => rfl
      | jarr xs =>
        by_cases hc :
            (xs.any fun x => match x with | .jstr s => s == "response" | _ => false)
              = true <;>
          simp [pyContains, respStr, jGetItem, hc]

/-- C5, witness at a concrete line with a string `response` field. -/
theorem c5_witness :
    genLineEvents genHelloLine =
      GenEvent.raw (pyStrip genHelloLine.raw) ::
        (match respStr genHelloLine.parsed with
         | some s => [GenEvent.token s]
         | none => []) :=
  c5_generate_raw_and_token genHelloLine (by decide)

/-! ## Claim C6 -/

/-- C6, confirmed: the model-list accumulation loop takes the first
whitespace-delimited token of every line, skipping token-less (empty) lines,
the header line whose first token is `NAME`, and lines whose first token
begins with the `[GIN]` noise marker; in particular the output
`NAME SIZE` / `modelA 3B` / `modelB 7B` yields exactly
`["modelA", "modelB"]`, which is what both combo boxes are populated with. -/
theorem c6_model_list_first_tokens :
    (∀ lines : List String, modelNamesLoop lines = lines.filterMap tokenName) ∧
    modelNamesLoop (pySplitlines (strip_output "NAME SIZE\nmodelA 3B\nmodelB 7B")) =
      ["modelA", "modelB"] ∧
    (onModelListOutput ⟨[], [], []⟩ "NAME SIZE\nmodelA 3B\nmodelB 7B").runModels =
      ["modelA", "modelB"] ∧
    (onModelListOutput ⟨[], [], []⟩ "NAME SIZE\nmodelA 3B\nmodelB 7B").pullModels =
      ["modelA", "modelB"] :=
  ⟨modelNamesLoop_eq_filterMap, by decide, by decide, by decide⟩

/-! ## Claim C7 -/

/-- C7, counterexample.  Calling send with a blank command while no session
is open returns the empty-input report, not the not-running report: the
blank-input guard precedes the session check, so the claim that such a call
returns NotRunning fails on the empty command. -/
theorem c7_counterexample :
    sendCommand "" ⟨none, [], []⟩ =
      (SendOutcome.promptEmpty, ⟨none, [], ["请输入命令"]⟩) ∧
    SendOutcome.promptEmpty ≠ SendOutcome.notRunning :=
  ⟨by decide, by decide⟩

/-- C7, amended: calling send with a command whose stripped text is nonempty,
before a pty session is open or after the interactive child has exited,
reports not-running and attempts no write to the master descriptor, leaving
the session and the write history unchanged; a blank command is instead
rejected by the input-validation guard (also with no write and no state
change). -/
theorem c7_send_not_running (input : String) (ui : PtyUI)
    (hne : pyStrip input ≠ "")
    (hdead : ∀ s, ui.session = some s → s.alive = false) :
    (sendCommand input ui).1 = SendOutcome.notRunning ∧
    (sendCommand input ui).2.session = ui.session ∧
    (sendCommand input ui).2.writes = ui.writes := by
  unfold sendCommand
  rw [if_neg hne]
  cases hs : ui.session with
  | none => simp [hs]
  | some s =>
    have ha : s.alive = false := hdead s hs
    simp [hs, ha]

/-- C7, witness: a nonempty command sent before any session is open. -/
theorem c7_witness :
    (sendCommand "hi" ⟨none, [], []⟩).1 = SendOutcome.notRunning ∧
    (sendCommand "hi" ⟨none, [], []⟩).2.session = (⟨none, [], []⟩ : PtyUI).session ∧
    (sendCommand "hi" ⟨none, [], []⟩).2.writes = (⟨none, [], []⟩ : PtyUI).writes :=
  c7_send_not_running "hi" ⟨none, [], []⟩ (by decide) (fun s h => nomatch h)

/-! ## Claim C8 -/

/-- C8, counterexample.  A second start while the server role is Running does
not fail with AlreadyRunning — it completes leaving only the three
informational log entries (no failure entry of any kind), because
`startServer` never checks the process state and Qt's start-while-running is
a warn-and-return no-op; the state keeps the one live process. -/
theorem c8_counterexample :
    startServer true "/opt/ollama" ⟨QPState.running, []⟩ =
      ⟨QPState.running,
       ["启动服务端：ollama serve", "服务器路径: /opt/ollama",
        "设置工作目录: /opt"]⟩ ∧
    liveServerProcs (startServer true "/opt/ollama" ⟨QPState.running, []⟩) = 1 ∧
    ((startServer true "/opt/ollama" ⟨QPState.running, []⟩).serverLog.all
      (fun m => !(m == "启动进程失败！") && !(pyStarts "错误" m))) = true :=
  ⟨by decide, by decide, by decide⟩

/-- C8, amended: calling start again for the server role while its process is
Running spawns no duplicate and leaves exactly one live process (the single
`QProcess` member refuses to start while running), but it does not fail with
AlreadyRunning: the call appends only the three informational log messages
and reports no error. -/
theorem c8_second_start_silent_noop (path : String) (ui : ServerUI)
    (h : ui.serverState = QPState.running) :
    (startServer true path ui).serverState = QPState.running ∧
    liveServerProcs (startServer true path ui) = 1 ∧
    (startServer true path ui).serverLog =
      ui.serverLog ++
        ["启动服务端：ollama serve", "服务器路径: " ++ path,
         "设置工作目录: " ++ pyDirname path] := by
  unfold startServer qStart qWaitForStarted liveServerProcs
  simp [h]

/-- C8, witness at a concrete running state. -/
theorem c8_witness :
    (startServer true "/srv/bin/ollama" ⟨QPState.running, ["boot"]⟩).serverState =
      QPState.running ∧
    liveServerProcs (startServer true "/srv/bin/ollama" ⟨QPState.running, ["boot"]⟩)
      = 1 ∧
    (startServer true "/srv/bin/ollama" ⟨QPState.running, ["boot"]⟩).serverLog =
      ["boot"] ++
        ["启动服务端：ollama serve", "服务器路径: /srv/bin/ollama",
         "设置工作目录: " ++ pyDirname "/srv/bin/ollama"] :=
  c8_second_start_silent_noop "/srv/bin/ollama" ⟨QPState.running, ["boot"]⟩ rfl

/-! ## Claim C9 -/

/-- C9, counterexample.  A line that parses as valid JSON — an object even
carrying both fields, with `total` bound to `null` — still reaches the
textual fallback, because `int(None)` raises inside the `try` block; since
the raw text matches the `Downloaded:`/`Total:` pattern, a progress event and
a download-info event are emitted for a line whose JSON parsing did not
raise, refuting the claim that the fallback is reached only when JSON parsing
raises. -/
theorem c9_counterexample :
    nullTotalLine.parsed.isSome = true ∧
    pullJsonBranch nullTotalLine.parsed = none ∧
    pullLineEvents nullTotalLine =
      [PullEvent.log (debugStr (pyStrip nullTotalLine.raw)),
       PullEvent.progress 50, PullEvent.info 5 10] :=
  ⟨by decide, by decide, by decide⟩

/-- C9, amended: a Pull-stream line that parses as a JSON object lacking the
`total` or `completed` key emits no progress and no download-info event — the
fallback is not even consulted, whatever the line's text — and the textual
fallback is reached not only when JSON parsing raises but exactly when the
`try` block raises, e.g. when a present `total` field fails `int()`
conversion, in which case the fallback runs on the raw line text. -/
theorem c9_missing_fields_suppress_and_raise_reaches_fallback :
    (∀ (fs : List (String × JVal)) (raw : String), raw ≠ "" →
      (jLookup fs "total" = none ∨ jLookup fs "completed" = none) →
      pullLineEvents ⟨raw, some (JVal.jobj fs)⟩ =
        [PullEvent.log (debugStr (pyStrip raw))]) ∧
    (∀ (fs : List (String × JVal)) (raw : String) (v : JVal), raw ≠ "" →
      jLookup fs "total" = some v → pyInt v = none →
      (jLookup fs "completed").isSome = true →
      pullLineEvents ⟨raw, some (JVal.jobj fs)⟩ =
        PullEvent.log (debugStr (pyStrip raw)) :: pullFallback (pyStrip raw)) := by
  constructor
  · intro fs raw hraw hmiss
    unfold pullLineEvents pullJsonBranch pyContains
    rcases hmiss with hm | hm
    · simp [hraw, hm]
    · cases ht : jLookup fs "total" with
      | none => simp [hraw, ht]
      | some v => simp [hraw, ht, hm]
  · intro fs raw v hraw ht hv hc
    unfold pullLineEvents pullJsonBranch pyContains jGetItem
    simp [hraw, ht, hv, hc]

/-- C9, witness: both amended parts at concrete lines — an object lacking
`completed`, and the null-`total` object whose fallback fires. -/
theorem c9_witness :
    pullLineEvents ⟨"\x7b\"total\": 7\x7d", some (JVal.jobj [("total", JVal.jnum 7)])⟩ =
      [PullEvent.log (debugStr (pyStrip "\x7b\"total\": 7\x7d"))] ∧
    pullLineEvents nullTotalLine =
      PullEvent.log (debugStr (pyStrip nullTotalLine.raw)) ::
        pullFallback (pyStrip nullTotalLine.raw) :=
  ⟨c9_missing_fields_suppress_and_raise_reaches_fallback.1
      [("total", JVal.jnum 7)] "\x7b\"total\": 7\x7d" (by decide) (Or.inr rfl),
   c9_missing_fields_suppress_and_raise_reaches_fallback.2
      [("total", JVal.jnull), ("completed", JVal.jnum 0),
       ("note", JVal.jstr "Downloaded: 5 Total: 10")]
      nullTotalLine.raw JVal.jnull (by decide) rfl rfl rfl⟩

/-! ## Claim C10 -/

/-- C10, confirmed: when the parsed model-name list is empty the run-model
and pull-model combo boxes are left unchanged by `onModelListOutput`; they
are cleared and repopulated (with exactly the parsed names) only when at
least one name was parsed. -/
theorem c10_combo_frame (ui : ComboUI) (out : String) :
    (modelNamesLoop (pySplitlines (strip_output out)) = [] →
      (onModelListOutput ui out).runModels = ui.runModels ∧
      (onModelListOutput ui out).pullModels = ui.pullModels) ∧
    (modelNamesLoop (pySplitlines (strip_output out)) ≠ [] →
      (onModelListOutput ui out).runModels =
        modelNamesLoop (pySplitlines (strip_output out)) ∧
      (onModelListOutput ui out).pullModels =
        modelNamesLoop (pySplitlines (strip_output out))) := by
  unfold onModelListOutput
  constructor
  · intro h
    simp [h]
  · intro h
    simp [List.isEmpty_iff, h]

/-- C10, witness: a noise-only output leaves concrete combo boxes untouched,
and a real listing repopulates them. -/
theorem c10_witness :
    ((onModelListOutput ⟨["m"], ["p"], []⟩ "[GIN] 2026/01/01 noise").runModels
        = ["m"] ∧
      (onModelListOutput ⟨["m"], ["p"], []⟩ "[GIN] 2026/01/01 noise").pullModels
        = ["p"]) ∧
    ((onModelListOutput ⟨["m"], ["p"], []⟩ "NAME\nllama 1B").runModels
        = modelNamesLoop (pySplitlines (strip_output "NAME\nllama 1B")) ∧
      (onModelListOutput ⟨["m"], ["p"], []⟩ "NAME\nllama 1B").pullModels
        = modelNamesLoop (pySplitlines (strip_output "NAME\nllama 1B"))) :=
  ⟨(c10_combo_frame ⟨["m"], ["p"], []⟩ "[GIN] 2026/01/01 noise").1 (by decide),
   (c10_combo_frame ⟨["m"], ["p"], []⟩ "NAME\nllama 1B").2 (by decide)⟩

end OllamaGpt
